import Mathlib

/-!
Verification of the wima-backend request-validation and authorization
pipeline against its natural-language specification.

The Python source is shallowly embedded: dynamically typed JSON values
become the inductive `PyVal`; request bodies become association lists;
`datetime.now().date()` becomes an explicit `today` parameter; Unix time
becomes an explicit `now : Int` parameter.  External collaborators (the
PyJWT encode/decode pair, bcrypt verification, the SQLAlchemy row
lookups) are modelled by concrete executable functions with the
documented input/output behaviour; everything in `app/utils` and the
route handlers is translated clause by clause from the source.
-/

namespace Wima

/-- A Python value as it appears in a parsed JSON request body.
Only the shapes the endpoints inspect are modelled: `None`, booleans,
integers and strings. -/
inductive PyVal where
  | vNone : PyVal
  | vBool : Bool → PyVal
  | vInt : Int → PyVal
  | vStr : String → PyVal
deriving DecidableEq, Repr

/-- A parsed JSON object (`request.get_json()`), as an association list.
Lookup takes the first binding of a key. -/
abbrev Data := List (String × PyVal)

/-- Python truthiness (`if value:`) for the modelled values:
`None`, `False`, `0` and `""` are falsy. -/
def pyTruthy : PyVal → Bool
  | .vNone => false
  | .vBool b => b
  | .vInt n => n != 0
  | .vStr s => s != ""

/-- `isinstance(value, str)`. -/
def isStrVal : PyVal → Bool
  | .vStr _ => true
  | _ => false

/-- `data.get(key)`: the bound value, or `None` when the key is absent. -/
def pyGet (d : Data) (k : String) : PyVal :=
  match d.find? (fun p => p.1 == k) with
  | some p => p.2
  | none => .vNone

/-- Overwrite a key in a request body (new binding shadows any old one). -/
def setKey (d : Data) (k : String) (v : PyVal) : Data := (k, v) :: d

/-- The whitespace characters stripped by `str.strip()` and matched by
the regex class `\s` (ASCII range). -/
def isPyWs (c : Char) : Bool :=
  c == ' ' || c == '\t' || c == '\n' || c == '\r' || c == '\x0b' || c == '\x0c'

/-- `str.strip()` on a character list: drop whitespace from both ends. -/
def pyStripL (l : List Char) : List Char :=
  ((l.dropWhile isPyWs).reverse.dropWhile isPyWs).reverse

/-- `str.lower()` (ASCII fold, which covers every string in this model). -/
def pyLowerStr (s : String) : String := String.mk (s.data.map Char.toLower)

/-- Digit-string to number; `none` unless the list is nonempty and all digits. -/
def charsToNat (l : List Char) : Option Nat :=
  if l ≠ [] ∧ l.all Char.isDigit then
    some (l.foldl (fun a c => a * 10 + (c.toNat - 48)) 0)
  else none

/-- Python `int(str)`: strip whitespace, optional sign, decimal digits. -/
def pyIntOfStr (s : String) : Option Int :=
  match pyStripL s.data with
  | '+' :: r => (charsToNat r).map Int.ofNat
  | '-' :: r => (charsToNat r).map (fun n => -(n : Int))
  | r => (charsToNat r).map Int.ofNat

/-- Python `int(value)` on the modelled values: succeeds on ints, bools
and well-formed numeric strings; `none` models the raised
`TypeError`/`ValueError` otherwise. -/
def pyInt : PyVal → Option Int
  | .vNone => none
  | .vBool b => some (if b then 1 else 0)
  | .vInt n => some n
  | .vStr s => pyIntOfStr s

/-- Split a character list at every occurrence of `c`
(Python `str.split(c)` for a single-character separator). -/
def splitCh (c : Char) : List Char → List (List Char)
  | [] => [[]]
  | ch :: rest =>
    let r := splitCh c rest
    if ch = c then [] :: r
    else
      match r with
      | [] => [[ch]]
      | h :: t => (ch :: h) :: t

theorem splitCh_ne_nil (c : Char) (l : List Char) : splitCh c l ≠ [] := by
  cases l with
  | nil => simp [splitCh]
  | cons ch rest =>
    simp only [splitCh]
    split
    · simp
    · split <;> simp

theorem splitCh_no_sep (c : Char) (l : List Char) (h : ∀ ch ∈ l, ch ≠ c) :
    splitCh c l = [l] := by
  induction l with
  | nil => rfl
  | cons ch rest ih =>
    have hch : ch ≠ c := h ch (List.mem_cons_self ch rest)
    have hrest : splitCh c rest = [rest] := ih (fun x hx => h x (List.mem_cons_of_mem ch hx))
    simp [splitCh, hch, hrest]

/-! ## Validators (`app/utils/validators.py`) -/

/-- A character of the regex class `[a-zA-Z0-9._%+-]` (email local part). -/
def isLocalChar (c : Char) : Bool :=
  c.isAlpha || c.isDigit || c == '.' || c == '_' || c == '%' || c == '+' || c == '-'

/-- A character of the regex class `[a-zA-Z0-9.-]` excluding the dot
(dots are handled as separators when deciding the domain shape). -/
def isDomChar (c : Char) : Bool := c.isAlpha || c.isDigit || c == '-'

/-- Whether a character list matches the domain part
`[a-zA-Z0-9.-]+\.[a-zA-Z]{2,}` of the email regex: there is a final dot
whose suffix is two or more letters and whose nonempty preamble stays in
the domain class. -/
def emailDomainOk (dom : List Char) : Bool :=
  let parts := splitCh '.' dom
  decide (2 ≤ parts.length) &&
    (match parts.getLast? with
     | some tld => decide (2 ≤ tld.length) && tld.all Char.isAlpha
     | none => false) &&
    (parts.dropLast.all (fun p => p.all isDomChar)) &&
    !(parts.dropLast == [([] : List Char)])

/-- Whether a (stripped) character list matches the full email pattern
`^[a-zA-Z0-9._%+-]+@[a-zA-Z0-9.-]+\.[a-zA-Z]{2,}$`. -/
def emailChars (l : List Char) : Bool :=
  match splitCh '@' l with
  | [loc, dom] => !(loc == []) && loc.all isLocalChar && emailDomainOk dom
  | _ => false

/-- `validate_email`: `False` for `None`/non-strings, otherwise regex
match on the stripped string. -/
def validate_email (v : PyVal) : Bool :=
  match v with
  | .vStr s => !(s == "") && emailChars (pyStripL s.data)
  | _ => false

/-- Whether a cleaned character list matches `^\+?[1-9]\d{6,14}$`. -/
def phoneDigitsOk (l : List Char) : Bool :=
  match l with
  | c :: rest =>
    ('1' ≤ c && c ≤ '9') && rest.all Char.isDigit &&
      decide (7 ≤ l.length) && decide (l.length ≤ 15)
  | [] => false

/-- `validate_phone`: strip spaces/dashes/parentheses (`[\s\-\(\)]`),
then match an optional `+` followed by 7-15 digits, first digit nonzero. -/
def validate_phone (v : PyVal) : Bool :=
  match v with
  | .vStr s =>
    if s == "" then false
    else
      let cleaned := s.data.filter (fun c => !(isPyWs c || c == '-' || c == '(' || c == ')'))
      match cleaned with
      | '+' :: rest => phoneDigitsOk rest
      | l => phoneDigitsOk l
  | _ => false

/-- A calendar date, as produced by `datetime.strptime(s, '%Y-%m-%d').date()`. -/
structure PyDate where
  y : Nat
  m : Nat
  d : Nat
deriving DecidableEq, Repr

/-- Gregorian leap year. -/
def isLeap (y : Nat) : Bool := y % 4 == 0 && (y % 100 != 0 || y % 400 == 0)

/-- Days in a month, as enforced by the `datetime` constructor. -/
def daysInMonth (y m : Nat) : Nat :=
  if m == 2 then (if isLeap y then 29 else 28)
  else if m == 4 || m == 6 || m == 9 || m == 11 then 30
  else 31

/-- `datetime.strptime(s, '%Y-%m-%d')`: a four-digit year, a one- or
two-digit month in 1-12, a one- or two-digit day, and the constructed
date must be a real calendar date with year at least 1. -/
def parseDate (s : String) : Option PyDate :=
  match splitCh '-' s.data with
  | [ys, ms, ds] =>
    match charsToNat ys, charsToNat ms, charsToNat ds with
    | some y, some m, some d =>
      if ys.length = 4 ∧ ms.length ≤ 2 ∧ ds.length ≤ 2 ∧
          1 ≤ y ∧ 1 ≤ m ∧ m ≤ 12 ∧ 1 ≤ d ∧ d ≤ daysInMonth y m then
        some ⟨y, m, d⟩
      else none
    | _, _, _ => none
  | _ => none

/-- `strptime` applied to a request value (non-strings raise, i.e. fail). -/
def pvParseDate : PyVal → Option PyDate
  | .vStr s => parseDate s
  | _ => none

/-- `validate_date_format`: `False` for `None`/non-strings, otherwise a
strict `YYYY-MM-DD` parse. -/
def validate_date_format (v : PyVal) : Bool :=
  match v with
  | .vStr s => !(s == "") && (parseDate s).isSome
  | _ => false

/-- Date comparison `a <= b` (lexicographic on year, month, day). -/
def dateLe (a b : PyDate) : Bool :=
  if a.y ≠ b.y then decide (a.y < b.y)
  else if a.m ≠ b.m then decide (a.m < b.m)
  else decide (a.d ≤ b.d)

/-- `validate_date_not_past`: valid format and `date >= today`
(`datetime.now().date()` is the explicit `today` parameter). -/
def validate_date_not_past (v : PyVal) (today : PyDate) : Bool :=
  if !validate_date_format v then false
  else
    match pvParseDate v with
    | some dt => dateLe today dt
    | none => false

/-- `validate_check_dates`: first failing rule wins, in source order
(check-in format, check-out format, past check-in, ordering). -/
def validate_check_dates (ci co : PyVal) (today : PyDate) : Bool × Option String :=
  if !validate_date_format ci then
    (false, some "Invalid check-in date format. Use YYYY-MM-DD.")
  else if !validate_date_format co then
    (false, some "Invalid check-out date format. Use YYYY-MM-DD.")
  else if !validate_date_not_past ci today then
    (false, some "Check-in date cannot be in the past.")
  else
    match pvParseDate ci, pvParseDate co with
    | some dci, some dco =>
      if dateLe dco dci then
        (false, some "Check-out date must be after check-in date.")
      else (true, none)
    | _, _ => (false, none)

/-- `validate_guest_count`: `int(guests)` must land in `[1, max_capacity]`;
a failed coercion (`TypeError`/`ValueError`) is a failure. -/
def validate_guest_count (guests : PyVal) (maxCapacity : Int) : Bool :=
  match pyInt guests with
  | some n => decide (1 ≤ n) && decide (n ≤ maxCapacity)
  | none => false

/-- `validate_inquiry_type`: membership in the allow-list. -/
def validate_inquiry_type (s : String) : Bool :=
  ["booking", "event", "general"].contains s

/-- `validate_event_type`: membership in the allow-list. -/
def validate_event_type (s : String) : Bool :=
  ["wedding", "corporate", "birthday", "reunion", "graduation", "other"].contains s

/-- `sanitize_string`: the empty string for falsy or non-string input,
otherwise `value.strip()[:max_length]`. -/
def sanitize_string (v : PyVal) (maxLength : Nat) : String :=
  match v with
  | .vStr s =>
    if s == "" then ""
    else String.mk ((pyStripL s.data).take maxLength)
  | _ => ""

/-- A value counts as missing when it is `None` or a string that is
empty after stripping. -/
def isMissingVal : PyVal → Bool
  | .vNone => true
  | .vStr s => pyStripL s.data == []
  | _ => false

/-- `validate_required_fields`: the full list of missing keys, in order. -/
def validate_required_fields (d : Data) (fields : List String) : Bool × List String :=
  let missing := fields.filter (fun f => isMissingVal (pyGet d f))
  (missing.isEmpty, missing)

/-- `", ".join(xs)`. -/
def joinComma (xs : List String) : String := String.intercalate ", " xs

/-! ## User model (`app/models/user.py`) -/

/-- A row of the `users` table (the Principal). -/
structure User where
  id : Nat
  email : String
  passwordHash : String
  name : String
  role : String
  is_active : Bool
deriving DecidableEq, Repr

/-- `User.ROLES`. -/
def ROLES : List String := ["admin", "manager", "staff"]

/-- `User.is_admin`. -/
def User.is_admin (u : User) : Bool := u.role == "admin"

/-- `User.is_manager_or_above`. -/
def User.is_manager_or_above (u : User) : Bool :=
  ["admin", "manager"].contains u.role

/-- Modelled bcrypt digest: `bcrypt.hashpw` is a deterministic one-way
function of the password; the model keeps only what the code relies on,
namely that `checkpw` compares the stored hash against the digest of the
offered password. -/
def hashPassword (pw : String) : String := "bcrypt$" ++ pw

/-- `User.check_password` (`bcrypt.checkpw` against the stored hash). -/
def check_password (u : User) (pw : String) : Bool :=
  u.passwordHash == hashPassword pw

/-- `User.query.get(user_id)`. -/
def userById (db : List User) (uid : Nat) : Option User :=
  db.find? (fun u => u.id == uid)

/-- `User.get_by_email`: filter by the lowercased email. -/
def get_by_email (db : List User) (email : String) : Option User :=
  db.find? (fun u => u.email == pyLowerStr email)

/-! ## Token service (`app/utils/auth.py` with the PyJWT collaborator)

A JWT is modelled as the serialized claim fields followed by a signature
over the serialized portion: `uid|email|role|exp|iat|sig`.  `mkSig`
stands in for HMAC-SHA256 with the server secret: a deterministic
function of secret and signed bytes, compared for equality on verify. -/

/-- The decoded JWT payload (the claims embedded at issuance). -/
structure Payload where
  user_id : Nat
  email : String
  role : String
  exp : Int
  iat : Int
deriving DecidableEq, Repr

/-- Modelled HMAC signature over the signed portion of the token. -/
def mkSig (secret : String) (body : List Char) : Nat :=
  (secret.data ++ '#' :: body).foldl (fun a c => (a * 131 + c.toNat) % 1000003) 7

/-- Digit-string to integer, allowing a leading minus sign. -/
def charsToInt (l : List Char) : Option Int :=
  match l with
  | '-' :: r => (charsToNat r).map (fun n => -(n : Int))
  | r => (charsToNat r).map Int.ofNat

/-- Parse the serialized token into its payload, its claimed signature
and the signed portion; `none` is a malformed token. -/
def parseJwt (token : String) : Option (Payload × Nat × List Char) :=
  match splitCh '|' token.data with
  | [us, es, rs, xs, ts, ss] =>
    match charsToNat us, charsToInt xs, charsToInt ts, charsToNat ss with
    | some uid, some ex, some ia, some sg =>
      some (⟨uid, String.mk es, String.mk rs, ex, ia⟩, sg,
        us ++ '|' :: es ++ '|' :: rs ++ '|' :: xs ++ '|' :: ts)
    | _, _, _, _ => none
  | _ => none

/-- The two PyJWT failure modes `decode_token` distinguishes for logging. -/
inductive JwtErr where
  | expiredSignature : JwtErr
  | invalidToken : JwtErr
deriving DecidableEq, Repr

/-- `jwt.decode(token, secret, algorithms=['HS256'])`: reject malformed
tokens and bad signatures as `InvalidTokenError`, then reject a passed
expiry as `ExpiredSignatureError`, else return the payload. -/
def jwtDecode (token secret : String) (now : Int) : Except JwtErr Payload :=
  match parseJwt token with
  | none => .error .invalidToken
  | some (p, sg, body) =>
    if sg ≠ mkSig secret body then .error .invalidToken
    else if p.exp < now then .error .expiredSignature
    else .ok p

/-- `decode_token`: both failure modes collapse to `None` for the caller. -/
def decode_token (token secret : String) (now : Int) : Option Payload :=
  match jwtDecode token secret now with
  | .ok p => some p
  | .error _ => none

/-- `jwt.encode`: serialize the claims and append the signature. -/
def encodeJwt (secret : String) (p : Payload) : String :=
  let body := toString p.user_id ++ "|" ++ p.email ++ "|" ++ p.role ++ "|" ++
    toString p.exp ++ "|" ++ toString p.iat
  body ++ "|" ++ toString (mkSig secret body.data)

/-- `generate_token` with the default 24-hour window (`now` in seconds). -/
def generate_token (user : User) (secret : String) (now : Int) : String :=
  encodeJwt secret ⟨user.id, user.email, user.role, now + 24 * 3600, now⟩

/-! ## Access guard (`app/utils/auth.py`) -/

/-- `'Bearer '.isPrefixOf`, i.e. `auth_header.startswith('Bearer ')`. -/
def bearerScheme (h : String) : Bool := "Bearer ".data.isPrefixOf h.data

/-- `auth_header.split(' ')[1]` (guarded by the scheme check, so the
index always exists). -/
def headerToken (h : String) : String :=
  String.mk ((splitCh ' ' h.data).getD 1 [])

/-- `get_current_user`: header present with the bearer scheme, token
decodes, principal row reloaded by the embedded id and still active. -/
def get_current_user (db : List User) (secret : String) (now : Int)
    (header : Option String) : Option User :=
  match header with
  | none => none
  | some h =>
    if h == "" || !bearerScheme h then none
    else
      match decode_token (headerToken h) secret now with
      | none => none
      | some payload =>
        match userById db payload.user_id with
        | none => none
        | some user => if !user.is_active then none else some user

/-- A caller-visible JSON response (only the keys the modelled
endpoints emit). -/
structure Resp where
  status : Nat
  success : Bool
  error : Option String
  error_type : Option String
  message : Option String
  token : Option String
deriving DecidableEq, Repr

/-- The 401 body shared by all three guard decorators. -/
def respUnauthorized : Resp :=
  { status := 401, success := false, error := some "Authentication required",
    error_type := some "unauthorized", message := none, token := none }

/-- The 403 body of `require_admin`. -/
def respForbiddenAdmin : Resp :=
  { status := 403, success := false, error := some "Admin privileges required",
    error_type := some "forbidden", message := none, token := none }

/-- The 403 body of `require_manager`. -/
def respForbiddenManager : Resp :=
  { status := 403, success := false, error := some "Manager privileges required",
    error_type := some "forbidden", message := none, token := none }

/-- `require_auth`: any authenticated principal. -/
def require_auth (db : List User) (secret : String) (now : Int)
    (header : Option String) (handler : User → Resp) : Resp :=
  match get_current_user db secret now header with
  | none => respUnauthorized
  | some u => handler u

/-- `require_admin`: admin only. -/
def require_admin (db : List User) (secret : String) (now : Int)
    (header : Option String) (handler : User → Resp) : Resp :=
  match get_current_user db secret now header with
  | none => respUnauthorized
  | some u => if !u.is_admin then respForbiddenAdmin else handler u

/-- `require_manager`: manager or above. -/
def require_manager (db : List User) (secret : String) (now : Int)
    (header : Option String) (handler : User → Resp) : Resp :=
  match get_current_user db secret now header with
  | none => respUnauthorized
  | some u => if !u.is_manager_or_above then respForbiddenManager else handler u

/-- The privilege order of the spec, `staff < manager < admin`, as a
rank; used only to compare the code's string membership tests against
the spec's total order. -/
def specRoleRank (role : String) : Nat :=
  if role == "admin" then 2 else if role == "manager" then 1 else 0

/-! ## Error handlers (`app/utils/errors.py`) -/

/-- The `error_type` discriminators of the spec. -/
def errorTypeKinds : List String :=
  ["validation_error", "database_error", "not_found", "rate_limit_exceeded",
   "unauthorized", "forbidden", "bad_request", "method_not_allowed", "internal_error"]

/-- Handler for a raised `ValidationError` (default status 400). -/
def handleValidationError (msg : String) (status : Nat) : Resp :=
  { status := status, success := false, error := some msg,
    error_type := some "validation_error", message := none, token := none }

/-- Handler for a raised `DatabaseError` (message is fixed, detail never leaks). -/
def handleDatabaseError (status : Nat) : Resp :=
  { status := status, success := false,
    error := some "Database operation failed. Please try again.",
    error_type := some "database_error", message := none, token := none }

/-- Handler for a raised `NotFoundError`. -/
def handleNotFoundError (msg : String) (status : Nat) : Resp :=
  { status := status, success := false, error := some msg,
    error_type := some "not_found", message := none, token := none }

/-- Handler for a raised `RateLimitError`. -/
def handleRateLimitError (msg : String) (status : Nat) : Resp :=
  { status := status, success := false, error := some msg,
    error_type := some "rate_limit_exceeded", message := none, token := none }

/-- The HTTP 400 handler. -/
def handleBadRequest : Resp :=
  { status := 400, success := false, error := some "Bad request",
    error_type := some "bad_request", message := none, token := none }

/-- The HTTP 404 handler. -/
def handleNotFound : Resp :=
  { status := 404, success := false, error := some "Resource not found",
    error_type := some "not_found", message := none, token := none }

/-- The HTTP 405 handler. -/
def handleMethodNotAllowed : Resp :=
  { status := 405, success := false, error := some "Method not allowed",
    error_type := some "method_not_allowed", message := none, token := none }

/-- The HTTP 500 handler. -/
def handleInternalError : Resp :=
  { status := 500, success := false,
    error := some "Internal server error. Please try again later.",
    error_type := some "internal_error", message := none, token := none }

/-! ## Login endpoint (`app/routes/auth.py`) -/

/-- The single generic invalid-credentials 401 body: emitted both for an
unknown email and for a wrong password, with no `error_type` key. -/
def respInvalidCreds : Resp :=
  { status := 401, success := false, error := some "Invalid email or password",
    error_type := none, message := none, token := none }

/-- The deactivated-account 401 body. -/
def respDeactivated : Resp :=
  { status := 401, success := false,
    error := some "Account is deactivated. Contact administrator.",
    error_type := none, message := none, token := none }

/-- The generic login 500 body (unexpected exception). -/
def respLoginFailed : Resp :=
  { status := 500, success := false, error := some "Login failed. Please try again.",
    error_type := none, message := none, token := none }

/-- The stages of `login` before the credential check: body present,
required fields, sanitation and lowercasing, email format.  A raised
`ValidationError` becomes its handled response. -/
def loginParse (data : Data) : Except Resp (String × PyVal) :=
  if data.isEmpty then .error (handleValidationError "No data provided" 400)
  else
    let vr := validate_required_fields data ["email", "password"]
    if !vr.1 then
      .error (handleValidationError ("Missing required fields: " ++ joinComma vr.2) 400)
    else
      let email := pyLowerStr (sanitize_string (pyGet data "email") 100)
      if !validate_email (.vStr email) then
        .error (handleValidationError "Invalid email format" 400)
      else .ok (email, pyGet data "password")

/-- `login`: parse, look the user up by email, check the password, check
the active flag, issue a token.  A non-string password raises inside
`bcrypt` and is caught by the generic 500 branch. -/
def login (db : List User) (secret : String) (now : Int) (data : Data) : Resp :=
  match loginParse data with
  | .error r => r
  | .ok (email, password) =>
    match get_by_email db email with
    | none => respInvalidCreds
    | some user =>
      match password with
      | .vStr pw =>
        if !check_password user pw then respInvalidCreds
        else if !user.is_active then respDeactivated
        else
          { status := 200, success := true, error := none, error_type := none,
            message := some "Login successful",
            token := some (generate_token user secret now) }
      | _ => respLoginFailed

/-! ## Package discount (`app/models/package.py`) -/

/-- A row of the `rooms` table (only what the endpoint inspects). -/
structure Room where
  id : Int
  is_active : Bool
deriving DecidableEq, Repr

/-- `Room.query.get(room_id)`: a lookup by integer primary key; other
value shapes match no row. -/
def roomById (rooms : List Room) (v : PyVal) : Option Room :=
  match v with
  | .vInt n => rooms.find? (fun r => r.id == n)
  | _ => none

/-- The persisted `Inquiry` row as built by `create_inquiry`. -/
structure InquiryRec where
  name : String
  email : String
  phone : String
  inquiry_type : String
  room_id : PyVal
  check_in : Option PyDate
  check_out : Option PyDate
  guests : Option Int
  message : String
deriving DecidableEq, Repr

/-- How `create_inquiry` can fail: a raised `ValidationError` with its
message, or the catch-all `DatabaseError` branch. -/
inductive InqErr where
  | validation : String → InqErr
  | database : InqErr
deriving DecidableEq, Repr

/-- The body of `create_inquiry` after `request.get_json()`, as a
function of the nine values the handler reads from the body (each read
is `data.get(key)` / `data[key]`, so the handler is exactly this
function of those reads). -/
def mkInquiryCore (rooms : List Room) (today : PyDate)
    (nameV emailV phoneV typeV messageV roomIdV ciV coV guestsV : PyVal) :
    Except InqErr InquiryRec :=
  let missing := ([("name", nameV), ("email", emailV), ("phone", phoneV),
    ("inquiry_type", typeV), ("message", messageV)].filter
      (fun p => isMissingVal p.2)).map (fun p => p.1)
  if !missing.isEmpty then
    .error (.validation ("Missing required fields: " ++ joinComma missing))
  else
    let name := sanitize_string nameV 100
    let email := sanitize_string emailV 100
    let phone := sanitize_string phoneV 20
    let message := sanitize_string messageV 2000
    let inquiryType := sanitize_string typeV 50
    if !validate_email (.vStr email) then
      .error (.validation "Invalid email format")
    else if !validate_phone (.vStr phone) then
      .error (.validation "Invalid phone format. Use format: +254700000000")
    else if !validate_inquiry_type inquiryType then
      .error (.validation "Invalid inquiry type. Must be: booking, event, or general")
    else if message.length < 10 then
      .error (.validation "Message must be at least 10 characters long")
    else if pyTruthy roomIdV &&
        (match roomById rooms roomIdV with
         | none => true
         | some r => !r.is_active) then
      .error (.validation "Invalid room ID")
    else
      match
        (if pyTruthy ciV && pyTruthy coV then
          match validate_check_dates ciV coV today with
          | (true, _) => Except.ok (pvParseDate ciV, pvParseDate coV)
          | (false, m) => Except.error (InqErr.validation (m.getD ""))
        else Except.ok (none, none)) with
      | .error e => .error e
      | .ok (ciDate, coDate) =>
        if pyTruthy guestsV && !validate_guest_count guestsV 10 then
          .error (.validation "Guest count must be between 1 and 10")
        else
          match (if pyTruthy guestsV then
              match pyInt guestsV with
              | some n => Except.ok (some n)
              | none => Except.error InqErr.database
            else Except.ok none) with
          | .error e => .error e
          | .ok g =>
            .ok { name := name, email := email, phone := phone,
                  inquiry_type := inquiryType, room_id := roomIdV,
                  check_in := ciDate, check_out := coDate, guests := g,
                  message := message }

/-- `create_inquiry`: an empty or absent JSON body is rejected, then the
staged validation of `mkInquiryCore` runs on the body's reads. -/
def create_inquiry (rooms : List Room) (today : PyDate) (data : Data) :
    Except InqErr InquiryRec :=
  if data.isEmpty then .error (.validation "No data provided")
  else
    mkInquiryCore rooms today (pyGet data "name") (pyGet data "email")
      (pyGet data "phone") (pyGet data "inquiry_type") (pyGet data "message")
      (pyGet data "room_id") (pyGet data "check_in") (pyGet data "check_out")
      (pyGet data "guests")

/-- The booking request of the endpoint docstring, with the guest count
left as a parameter; every other field passes its validation and the
optional room and date fields are absent. -/
def baseBookingData (g : PyVal) : Data :=
  [("name", .vStr "John Doe"), ("email", .vStr "john@example.com"),
   ("phone", .vStr "+254700000000"), ("inquiry_type", .vStr "booking"),
   ("message", .vStr "I would like to book this room"), ("guests", g)]

/-- The stored inquiry row for the base request. -/
def baseInquiryRec (g : Option Int) : InquiryRec :=
  { name := "John Doe", email := "john@example.com", phone := "+254700000000",
    inquiry_type := "booking", room_id := .vNone, check_in := none,
    check_out := none, guests := g, message := "I would like to book this room" }

/-! ## Helper lemmas -/

/-- On the base request every stage before the guest-count check passes,
so the endpoint reduces to the guest-count stage. -/
theorem create_inquiry_base (rooms : List Room) (today : PyDate) (v : PyVal) :
    create_inquiry rooms today (baseBookingData v) =
      (if pyTruthy v && !validate_guest_count v 10 then
        Except.error (.validation "Guest count must be between 1 and 10")
      else
        match (if pyTruthy v then
            match pyInt v with
            | some n => Except.ok (some n)
            | none => Except.error InqErr.database
          else Except.ok none) with
        | .error e => Except.error e
        | .ok g => Except.ok (baseInquiryRec g)) := rfl

theorem length_string_mk (l : List Char) : (String.mk l).length = l.length := rfl

theorem parseDate_empty : parseDate "" = none := by decide

theorem validate_date_format_str (s : String) :
    validate_date_format (.vStr s) = (parseDate s).isSome := by
  by_cases h : s = ""
  · subst h; simp [validate_date_format, parseDate_empty]
  · simp [validate_date_format, h]

theorem validate_date_not_past_str (s : String) (d : PyDate) (today : PyDate)
    (h : parseDate s = some d) :
    validate_date_not_past (.vStr s) today = dateLe today d := by
  simp [validate_date_not_past, validate_date_format_str, pvParseDate, h]

/-- C7: for every input value of any type, `sanitize_string` is total
(never raises): it returns the empty string for `None` or a non-string
input, and otherwise the input stripped of surrounding whitespace and
truncated to at most `max_length` characters. -/
theorem c7_sanitize_string_total (v : PyVal) (n : Nat) :
    (isStrVal v = false → sanitize_string v n = "") ∧
    (∀ s, v = PyVal.vStr s →
      sanitize_string v n = String.mk ((pyStripL s.data).take n)) ∧
    (sanitize_string v n).length ≤ n := by
  refine ⟨?_, ?_, ?_⟩
  · intro h
    cases v with
    | vStr s => simp [isStrVal] at h
    | vNone => rfl
    | vBool b => rfl
    | vInt m => rfl
  · intro s hv
    subst hv
    by_cases hs : s = ""
    · subst hs
      simp [sanitize_string, pyStripL, List.take_nil]
    · simp [sanitize_string, hs]
  · cases v with
    | vStr s =>
      by_cases hs : s = ""
      · simp [sanitize_string, hs]
      · simp only [sanitize_string]
        rw [if_neg (by simp [hs]), length_string_mk]
        exact (List.length_take _ _).le.trans (Nat.min_le_left _ _)
    | vNone => simp [sanitize_string]
    | vBool b => simp [sanitize_string]
    | vInt m => simp [sanitize_string]

/-- C7 witness: the clauses of `c7_sanitize_string_total` evaluated at
concrete inputs. -/
theorem c7_sanitize_string_witness :
    sanitize_string (PyVal.vInt 3) 5 = "" ∧
    sanitize_string (PyVal.vStr "  hello world  ") 5 = String.mk ((pyStripL "  hello world  ".data).take 5) := by
  exact ⟨(c7_sanitize_string_total (PyVal.vInt 3) 5).1 rfl,
    (c7_sanitize_string_total (PyVal.vStr "  hello world  ") 5).2.1 _ rfl⟩

/-- C4: for every token string, `decode_token` yields either the full
embedded claims or the single invalid result `None`: a malformed token,
a tampered token (signature mismatch) and an expired token all produce
exactly the same caller-visible `None`, and a token whose expiry has
passed is rejected even when its signature is valid. -/
theorem c4_decode_token_invalid (token secret : String) (now : Int) :
    (parseJwt token = none → decode_token token secret now = none) ∧
    (∀ p sg body, parseJwt token = some (p, sg, body) → sg ≠ mkSig secret body →
      decode_token token secret now = none) ∧
    (∀ p sg body, parseJwt token = some (p, sg, body) → sg = mkSig secret body →
      p.exp < now → decode_token token secret now = none) ∧
    (∀ p, decode_token token secret now = some p →
      ∃ sg body, parseJwt token = some (p, sg, body) ∧ sg = mkSig secret body ∧
        ¬ p.exp < now) := by
  refine ⟨?_, ?_, ?_, ?_⟩
  · intro h; simp [decode_token, jwtDecode, h]
  · intro p sg body h hsg; simp [decode_token, jwtDecode, h, hsg]
  · intro p sg body h hsg hexp
    simp [decode_token, jwtDecode, h, hsg, hexp]
  · intro p h
    unfold decode_token jwtDecode at h
    rcases hp : parseJwt token with _ | ⟨q, sg, body⟩ <;> rw [hp] at h
    · simp at h
    · by_cases hsg : sg = mkSig secret body
      · by_cases hexp : q.exp < now
        · simp [hsg, hexp] at h
        · have hq : q = p := by simpa [hsg, hexp] using h
          subst hq
          exact ⟨sg, body, rfl, hsg, hexp⟩
      · simp [hsg] at h

/-- C4 witness: a concretely issued token whose expiry has passed (and
whose signature is valid by construction) decodes to `None`. -/
theorem c4_decode_token_witness :
    decode_token (encodeJwt "sec" ⟨1, "a@b.co", "staff", 100, 50⟩) "sec" 200 = none := by
  exact (c4_decode_token_invalid (encodeJwt "sec" ⟨1, "a@b.co", "staff", 100, 50⟩)
    "sec" 200).2.2.1 ⟨1, "a@b.co", "staff", 100, 50⟩
    (mkSig "sec" "1|a@b.co|staff|100|50".data) "1|a@b.co|staff|100|50".data
    (by decide) rfl (by decide)

/-- C3: for every pair of strings, `validate_check_dates` passes exactly
when both parse as `YYYY-MM-DD` dates, check-in is today or later, and
check-out is strictly after check-in; on failure it reports the first
failing rule in source order — check-in format, check-out format, past
check-in, ordering — never an aggregate.  A past check-in fails with the
past-date message before the ordering rule is consulted, and a check-out
equal to the check-in fails with the ordering message. -/
theorem c3_validate_check_dates_first_failure (ci co : String) (today : PyDate) :
    ((validate_check_dates (.vStr ci) (.vStr co) today).1 = true ↔
      ∃ dci dco, parseDate ci = some dci ∧ parseDate co = some dco ∧
        dateLe today dci = true ∧ dateLe dco dci = false) ∧
    (parseDate ci = none →
      validate_check_dates (.vStr ci) (.vStr co) today =
        (false, some "Invalid check-in date format. Use YYYY-MM-DD.")) ∧
    (parseDate ci ≠ none → parseDate co = none →
      validate_check_dates (.vStr ci) (.vStr co) today =
        (false, some "Invalid check-out date format. Use YYYY-MM-DD.")) ∧
    (∀ dci, parseDate ci = some dci → parseDate co ≠ none →
      dateLe today dci = false →
      validate_check_dates (.vStr ci) (.vStr co) today =
        (false, some "Check-in date cannot be in the past.")) ∧
    (∀ dci dco, parseDate ci = some dci → parseDate co = some dco →
      dateLe today dci = true → dateLe dco dci = true →
      validate_check_dates (.vStr ci) (.vStr co) today =
        (false, some "Check-out date must be after check-in date.")) := by
  refine ⟨?_, ?_, ?_, ?_, ?_⟩
  · constructor
    · intro h
      rcases hci : parseDate ci with _ | dci
      · simp [validate_check_dates, validate_date_format_str, hci] at h
      · rcases hco : parseDate co with _ | dco
        · simp [validate_check_dates, validate_date_format_str, hci, hco] at h
        · refine ⟨dci, dco, rfl, rfl, ?_, ?_⟩ <;>
            by_cases hpast : dateLe today dci = true <;>
            by_cases hord : dateLe dco dci = true <;>
            simp_all [validate_check_dates, validate_date_format_str,
              validate_date_not_past_str ci dci today hci, pvParseDate, hci, hco]
    · rintro ⟨dci, dco, hci, hco, hpast, hord⟩
      simp [validate_check_dates, validate_date_format_str, hci, hco,
        validate_date_not_past_str ci dci today hci, pvParseDate, hpast, hord]
  · intro hci
    simp [validate_check_dates, validate_date_format_str, hci]
  · intro hci hco
    rcases hci2 : parseDate ci with _ | dci
    · exact absurd hci2 hci
    · simp [validate_check_dates, validate_date_format_str, hci2, hco]
  · intro dci hci hco hpast
    rcases hco2 : parseDate co with _ | dco
    · exact absurd hco2 hco
    · simp [validate_check_dates, validate_date_format_str, hci, hco2,
        validate_date_not_past_str ci dci today hci, hpast]
  · intro dci dco hci hco hpast hord
    simp [validate_check_dates, validate_date_format_str, hci, hco,
      validate_date_not_past_str ci dci today hci, pvParseDate, hpast, hord]

/-- C3 witness: with today `2026-01-01`, a check-out equal to the
check-in (`2026-03-15`) fails with the ordering message, and a past
check-in (`2020-03-15`) fails with the past-date message even though the
ordering rule is also violated. -/
theorem c3_validate_check_dates_witness :
    validate_check_dates (.vStr "2026-03-15") (.vStr "2026-03-15") ⟨2026, 1, 1⟩ =
      (false, some "Check-out date must be after check-in date.") ∧
    validate_check_dates (.vStr "2020-03-15") (.vStr "2020-03-10") ⟨2026, 1, 1⟩ =
      (false, some "Check-in date cannot be in the past.") := by
  constructor
  · exact (c3_validate_check_dates_first_failure "2026-03-15" "2026-03-15"
      ⟨2026, 1, 1⟩).2.2.2.2 ⟨2026, 3, 15⟩ ⟨2026, 3, 15⟩ (by decide) (by decide)
      (by decide) (by decide)
  · exact (c3_validate_check_dates_first_failure "2020-03-15" "2020-03-10"
      ⟨2026, 1, 1⟩).2.2.2.1 ⟨2020, 3, 15⟩ (by decide) (by decide) (by decide)

theorem loginParse_error_shape (data : Data) (r : Resp)
    (h : loginParse data = .error r) :
    r.status = 400 ∧ r.error_type = some "validation_error" := by
  simp only [loginParse] at h
  split at h
  · obtain rfl := (Except.error.inj h).symm
    exact ⟨rfl, rfl⟩
  · split at h
    · obtain rfl := (Except.error.inj h).symm
      exact ⟨rfl, rfl⟩
    · split at h
      · obtain rfl := (Except.error.inj h).symm
        exact ⟨rfl, rfl⟩
      · exact Except.noConfusion h

/-- C2 counterexample: a login attempt with a well-formed body and an
unknown email is a failure response (401, success `false`) that carries
no `error_type` key at all — refuting the claim that every failure
response of every endpoint carries an `error_type` discriminator. -/
theorem c2_login_error_type_counterexample :
    login [] "sec" 0 [("email", PyVal.vStr "a@b.co"), ("password", PyVal.vStr "pw")] =
      respInvalidCreds ∧
    respInvalidCreds.status = 401 ∧ respInvalidCreds.success = false ∧
    respInvalidCreds.error_type = none := by
  exact ⟨by decide, rfl, rfl, rfl⟩

/-- C2 (amended): every failure response produced by the registered
error handlers carries `success = false`, an error message string, and
an `error_type` drawn from the fixed nine-kind set; the login endpoint's
401 failure responses, however, are emitted inline and carry
`success = false` and an error message but no `error_type` key. -/
theorem c2_error_responses_amended :
    (∀ msg status, (handleValidationError msg status).success = false ∧
      (handleValidationError msg status).error = some msg ∧
      ∃ t, (handleValidationError msg status).error_type = some t ∧ t ∈ errorTypeKinds) ∧
    (∀ status, (handleDatabaseError status).success = false ∧
      ∃ t, (handleDatabaseError status).error_type = some t ∧ t ∈ errorTypeKinds) ∧
    (∀ msg status, (handleNotFoundError msg status).success = false ∧
      ∃ t, (handleNotFoundError msg status).error_type = some t ∧ t ∈ errorTypeKinds) ∧
    (∀ msg status, (handleRateLimitError msg status).success = false ∧
      ∃ t, (handleRateLimitError msg status).error_type = some t ∧ t ∈ errorTypeKinds) ∧
    (∀ r, r ∈ [handleBadRequest, handleNotFound, handleMethodNotAllowed,
        handleInternalError] → r.success = false ∧
      ∃ t, r.error_type = some t ∧ t ∈ errorTypeKinds) ∧
    (∀ db secret now data, (login db secret now data).status = 401 →
      (login db secret now data).success = false ∧
      (login db secret now data).error_type = none ∧
      (login db secret now data).error ≠ none) := by
  refine ⟨?_, ?_, ?_, ?_, ?_, ?_⟩
  · intro msg status
    exact ⟨rfl, rfl, "validation_error", rfl, by decide⟩
  · intro status
    exact ⟨rfl, "database_error", rfl, by decide⟩
  · intro msg status
    exact ⟨rfl, "not_found", rfl, by decide⟩
  · intro msg status
    exact ⟨rfl, "rate_limit_exceeded", rfl, by decide⟩
  · intro r hr
    simp only [List.mem_cons, List.not_mem_nil, or_false] at hr
    rcases hr with h | h | h | h
    · subst h; exact ⟨rfl, "bad_request", rfl, by decide⟩
    · subst h; exact ⟨rfl, "not_found", rfl, by decide⟩
    · subst h; exact ⟨rfl, "method_not_allowed", rfl, by decide⟩
    · subst h; exact ⟨rfl, "internal_error", rfl, by decide⟩
  · intro db secret now data h
    cases hp : loginParse data with
    | error r =>
      have h400 := (loginParse_error_shape data r hp).1
      simp only [login, hp] at h
      omega
    | ok ep =>
      obtain ⟨email, password⟩ := ep
      simp only [login, hp] at h ⊢
      cases hu : get_by_email db email with
      | none => simp [hu, respInvalidCreds]
      | some user =>
        simp only [hu] at h ⊢
        cases password with
        | vStr pw =>
          by_cases hcp : check_password user pw
          · by_cases hact : user.is_active
            · simp [hcp, hact] at h
            · simp [hcp, hact, respDeactivated]
          · simp [hcp, respInvalidCreds]
        | vNone => simp [respLoginFailed] at h
        | vBool b => simp [respLoginFailed] at h
        | vInt m => simp [respLoginFailed] at h

/-- C2 amended witness: the login clause of `c2_error_responses_amended`
discharged at a concrete request whose email matches no principal, and a
handler clause at a concrete message. -/
theorem c2_error_responses_witness :
    (login [] "sec" 0 [("email", PyVal.vStr "a@b.co"),
      ("password", PyVal.vStr "pw")]).error_type = none ∧
    ∃ t, (handleValidationError "Invalid email format" 400).error_type = some t ∧
      t ∈ errorTypeKinds := by
  constructor
  · exact (c2_error_responses_amended.2.2.2.2.2 [] "sec" 0
      [("email", PyVal.vStr "a@b.co"), ("password", PyVal.vStr "pw")] (by decide)).2.1
  · exact (c2_error_responses_amended.1 "Invalid email format" 400).2.2

/-- C8: a login request whose email matches no principal and a login
request with a known email but a wrong password produce the identical
caller-visible response — the single generic invalid-credentials 401 —
revealing nothing about which check failed. -/
theorem c8_login_uniform_failure (db : List User) (secret : String) (now : Int)
    (d₁ d₂ : Data) (e₁ e₂ : String) (p₁ : PyVal) (pw : String) (u : User)
    (h₁ : loginParse d₁ = .ok (e₁, p₁)) (hu₁ : get_by_email db e₁ = none)
    (h₂ : loginParse d₂ = .ok (e₂, PyVal.vStr pw)) (hu₂ : get_by_email db e₂ = some u)
    (hpw : check_password u pw = false) :
    login db secret now d₁ = login db secret now d₂ ∧
    login db secret now d₁ = respInvalidCreds ∧
    respInvalidCreds.error = some "Invalid email or password" := by
  have l1 : login db secret now d₁ = respInvalidCreds := by
    simp [login, h₁, hu₁]
  have l2 : login db secret now d₂ = respInvalidCreds := by
    simp [login, h₂, hu₂, hpw]
  exact ⟨l1.trans l2.symm, l1, rfl⟩

/-- A bearer header built from any token string satisfies the scheme check. -/
theorem bearerScheme_append (s : String) : bearerScheme ("Bearer " ++ s) = true := by
  unfold bearerScheme
  rw [String.data_append]
  exact List.isPrefixOf_iff_prefix.mpr (List.prefix_append _ _)

/-- Splitting a bearer header at spaces recovers the token, provided the
token itself contains no space (as serialized JWTs do not). -/
theorem headerToken_append (s : String) (h : ∀ c ∈ s.data, c ≠ ' ') :
    headerToken ("Bearer " ++ s) = s := by
  unfold headerToken
  rw [String.data_append]
  have hsp : splitCh ' ' ("Bearer ".data ++ s.data) = [['B','e','a','r','e','r'], s.data] := by
    have hrest : splitCh ' ' s.data = [s.data] := splitCh_no_sep ' ' s.data h
    simp [splitCh, hrest]
  rw [hsp]
  rfl

theorem bearer_append_ne_empty (s : String) : ("Bearer " ++ s) ≠ "" := by
  intro h
  have : ("Bearer " ++ s).data = "".data := by rw [h]
  rw [String.data_append] at this
  simp at this

/-- C5: a request carrying a signature-valid, unexpired token is still
treated as unauthenticated (the guard's 401) whenever the principal row
reloaded by the embedded id is absent or has its active flag cleared —
so a principal deactivated after token issuance is rejected on the very
next request, regardless of the token's own validity. -/
theorem c5_deactivated_principal_rejected (db : List User) (secret : String)
    (now : Int) (s : String) (p : Payload) (handler : User → Resp)
    (hs : ∀ c ∈ s.data, c ≠ ' ')
    (hdec : jwtDecode s secret now = .ok p)
    (hrow : userById db p.user_id = none ∨
      ∃ u, userById db p.user_id = some u ∧ u.is_active = false) :
    get_current_user db secret now (some ("Bearer " ++ s)) = none ∧
    require_auth db secret now (some ("Bearer " ++ s)) handler = respUnauthorized := by
  have hgcu : get_current_user db secret now (some ("Bearer " ++ s)) = none := by
    simp only [get_current_user]
    rw [if_neg (by simp [bearerScheme_append, bearer_append_ne_empty])]
    rw [headerToken_append s hs]
    have hdt : decode_token s secret now = some p := by
      unfold decode_token
      rw [hdec]
    rw [hdt]
    rcases hrow with hnone | ⟨u, hu, hact⟩
    · simp [hnone]
    · simp [hu, hact]
  exact ⟨hgcu, by unfold require_auth; rw [hgcu]⟩

/-- C5 witness: a concretely issued, unexpired token for principal id 1
is rejected against a store in which that principal is deactivated. -/
theorem c5_deactivated_principal_witness :
    get_current_user [⟨1, "s@wima.com", "h", "S", "staff", false⟩] "sec" 200
      (some ("Bearer " ++ encodeJwt "sec" ⟨1, "s@wima.com", "staff", 1000, 50⟩)) = none := by
  exact (c5_deactivated_principal_rejected
    [⟨1, "s@wima.com", "h", "S", "staff", false⟩] "sec" 200
    (encodeJwt "sec" ⟨1, "s@wima.com", "staff", 1000, 50⟩)
    ⟨1, "s@wima.com", "staff", 1000, 50⟩ (fun _ => respUnauthorized)
    (by decide) rfl
    (Or.inr ⟨⟨1, "s@wima.com", "h", "S", "staff", false⟩, by decide, rfl⟩)).1

/-- C6: the guards compare the principal's current privilege level
against the route's required minimum under the total order
`staff < manager < admin` (the code's membership tests agree with the
spec's rank comparison on every valid role): an authenticated principal
whose current role is `staff` is rejected with the distinct `forbidden`
kind (403) by the manager-or-above guard and by the admin-only guard,
and accepted by the any-authenticated guard; `unauthorized` (401) and
`forbidden` (403) are distinct machine-readable error kinds. -/
theorem c6_privilege_order (db : List User) (secret : String) (now : Int)
    (header : Option String) (u : User) (handler : User → Resp) :
    (get_current_user db secret now header = some u → u.role = "staff" →
      require_manager db secret now header handler = respForbiddenManager ∧
      require_admin db secret now header handler = respForbiddenAdmin ∧
      require_auth db secret now header handler = handler u) ∧
    (∀ v : User, v.role ∈ ROLES →
      v.is_manager_or_above = decide (1 ≤ specRoleRank v.role) ∧
      v.is_admin = decide (2 ≤ specRoleRank v.role)) ∧
    respUnauthorized.error_type ≠ respForbiddenManager.error_type ∧
    respForbiddenManager.error_type = respForbiddenAdmin.error_type ∧
    respUnauthorized.status = 401 ∧ respForbiddenManager.status = 403 ∧
    respForbiddenAdmin.status = 403 := by
  refine ⟨?_, ?_, by decide, rfl, rfl, rfl, rfl⟩
  · intro hgcu hrole
    refine ⟨?_, ?_, ?_⟩
    · unfold require_manager
      rw [hgcu]
      simp [User.is_manager_or_above, hrole]
    · unfold require_admin
      rw [hgcu]
      simp [User.is_admin, hrole]
    · unfold require_auth
      rw [hgcu]
  · intro v hv
    simp only [ROLES, List.mem_cons, List.not_mem_nil, or_false] at hv
    rcases hv with h | h | h <;>
      simp [User.is_manager_or_above, User.is_admin, specRoleRank, h]

/-- C6 witness: `c6_privilege_order` discharged at a store holding one
active staff principal and a concretely issued bearer token for it. -/
theorem c6_privilege_order_witness :
    require_manager [⟨1, "s@wima.com", "h", "S", "staff", true⟩] "sec" 2000
        (some ("Bearer " ++ generate_token ⟨1, "s@wima.com", "h", "S", "staff", true⟩ "sec" 1000))
        (fun _ => handleBadRequest) = respForbiddenManager ∧
    require_admin [⟨1, "s@wima.com", "h", "S", "staff", true⟩] "sec" 2000
        (some ("Bearer " ++ generate_token ⟨1, "s@wima.com", "h", "S", "staff", true⟩ "sec" 1000))
        (fun _ => handleBadRequest) = respForbiddenAdmin ∧
    require_auth [⟨1, "s@wima.com", "h", "S", "staff", true⟩] "sec" 2000
        (some ("Bearer " ++ generate_token ⟨1, "s@wima.com", "h", "S", "staff", true⟩ "sec" 1000))
        (fun _ => handleBadRequest) = handleBadRequest := by
  exact (c6_privilege_order [⟨1, "s@wima.com", "h", "S", "staff", true⟩] "sec" 2000
    (some ("Bearer " ++ generate_token ⟨1, "s@wima.com", "h", "S", "staff", true⟩ "sec" 1000))
    ⟨1, "s@wima.com", "h", "S", "staff", true⟩ (fun _ => handleBadRequest)).1
    (by decide) rfl

/-- C8 witness: `c8_login_uniform_failure` discharged at a concrete
store with one admin principal, an unknown-email request and a
wrong-password request. -/
theorem c8_login_uniform_failure_witness :
    login [⟨1, "admin@wima.com", hashPassword "pw123456", "Admin", "admin", true⟩]
        "sec" 5 [("email", PyVal.vStr "nobody@wima.com"), ("password", PyVal.vStr "x")] =
      login [⟨1, "admin@wima.com", hashPassword "pw123456", "Admin", "admin", true⟩]
        "sec" 5 [("email", PyVal.vStr "admin@wima.com"), ("password", PyVal.vStr "wrong")] := by
  exact (c8_login_uniform_failure
    [⟨1, "admin@wima.com", hashPassword "pw123456", "Admin", "admin", true⟩]
    "sec" 5
    [("email", PyVal.vStr "nobody@wima.com"), ("password", PyVal.vStr "x")]
    [("email", PyVal.vStr "admin@wima.com"), ("password", PyVal.vStr "wrong")]
    "nobody@wima.com" "admin@wima.com" (PyVal.vStr "x") "wrong"
    ⟨1, "admin@wima.com", hashPassword "pw123456", "Admin", "admin", true⟩
    rfl (by decide) rfl (by decide) (by decide)).1

/-- C1 counterexample: submitting the base booking inquiry with the
integer guest count `0` is not rejected: `0` is falsy, the guest-count
validation is skipped, and the inquiry is created with `guests` stored
as null — refuting the claim that a guest count of 0 is rejected with a
validation error. -/
theorem c1_guest_count_counterexample :
    create_inquiry [] ⟨2026, 1, 1⟩ (baseBookingData (PyVal.vInt 0)) =
      Except.ok (baseInquiryRec none) := rfl

/-- C1 (amended): on the room-booking inquiry endpoint a guest count of
`11` is rejected with a validation error and every integer guest count
from 1 through 10 is accepted; but `0` (like any falsy value) bypasses
the validation entirely and the inquiry is stored with a null guest
count; among truthy submitted values, acceptance is exactly the set of
values that coerce to an integer in `[1, 10]`. -/
theorem c1_guest_count_amended (rooms : List Room) (today : PyDate) (v : PyVal) :
    (pyTruthy v = false →
      create_inquiry rooms today (baseBookingData v) =
        Except.ok (baseInquiryRec none)) ∧
    (∀ n : Int, pyTruthy v = true → pyInt v = some n → 1 ≤ n → n ≤ 10 →
      create_inquiry rooms today (baseBookingData v) =
        Except.ok (baseInquiryRec (some n))) ∧
    (∀ n : Int, pyTruthy v = true → pyInt v = some n → ¬(1 ≤ n ∧ n ≤ 10) →
      create_inquiry rooms today (baseBookingData v) =
        Except.error (.validation "Guest count must be between 1 and 10")) ∧
    (pyTruthy v = true → pyInt v = none →
      create_inquiry rooms today (baseBookingData v) =
        Except.error (.validation "Guest count must be between 1 and 10")) ∧
    create_inquiry rooms today (baseBookingData (PyVal.vInt 11)) =
      Except.error (.validation "Guest count must be between 1 and 10") ∧
    (∀ k : Int, 1 ≤ k → k ≤ 10 →
      create_inquiry rooms today (baseBookingData (PyVal.vInt k)) =
        Except.ok (baseInquiryRec (some k))) := by
  refine ⟨?_, ?_, ?_, ?_, ?_, ?_⟩
  · intro h
    rw [create_inquiry_base]
    simp [h]
  · intro n ht hn h1 h10
    rw [create_inquiry_base]
    simp [ht, hn, validate_guest_count, h1, h10]
  · intro n ht hn hout
    rw [create_inquiry_base]
    simp [ht, hn, validate_guest_count]
    omega
  · intro ht hn
    rw [create_inquiry_base]
    simp [ht, hn, validate_guest_count]
  · rw [create_inquiry_base]
    rfl
  · intro k h1 h10
    rw [create_inquiry_base]
    have hk : k ≠ 0 := by omega
    simp [pyTruthy, pyInt, validate_guest_count, hk, h1, h10]

/-- C1 amended witness: `c1_guest_count_amended` discharged at concrete
guest counts — the numeric string "7" is accepted and stored as 7, the
out-of-range 11 is rejected, and the absent value is accepted with a
null stored count. -/
theorem c1_guest_count_witness :
    create_inquiry [] ⟨2026, 1, 1⟩ (baseBookingData (PyVal.vStr "7")) =
      Except.ok (baseInquiryRec (some 7)) ∧
    create_inquiry [] ⟨2026, 1, 1⟩ (baseBookingData PyVal.vNone) =
      Except.ok (baseInquiryRec none) := by
  constructor
  · exact (c1_guest_count_amended [] ⟨2026, 1, 1⟩ (PyVal.vStr "7")).2.1 7
      rfl rfl (by decide) (by decide)
  · exact (c1_guest_count_amended [] ⟨2026, 1, 1⟩ PyVal.vNone).1 rfl

theorem pyGet_setKey (d : Data) (k k' : String) (v : PyVal) :
    pyGet (setKey d k v) k' = if k == k' then v else pyGet d k' := by
  by_cases h : k == k'
  · simp [pyGet, setKey, List.find?_cons, h]
  · simp [pyGet, setKey, List.find?_cons, h]

/-- When the check-out read is falsy, the short-circuited date condition
is false whatever the check-in read holds, and check-in is consulted
nowhere else, so the handler's result is independent of it. -/
theorem mkInquiryCore_ci_irrel (rooms : List Room) (today : PyDate)
    (a b c d e f ci ci' co g : PyVal) (h : pyTruthy co = false) :
    mkInquiryCore rooms today a b c d e f ci co g =
      mkInquiryCore rooms today a b c d e f ci' co g := by
  unfold mkInquiryCore
  rw [h]
  simp

/-- Any inquiry created while the date condition is false stores null
check-in and check-out dates. -/
theorem mkInquiryCore_ok_dates_none (rooms : List Room) (today : PyDate)
    (a b c d e f ci co g : PyVal) (inq : InquiryRec)
    (hby : pyTruthy ci = false ∨ pyTruthy co = false)
    (hok : mkInquiryCore rooms today a b c d e f ci co g = .ok inq) :
    inq.check_in = none ∧ inq.check_out = none := by
  have hcond : (pyTruthy ci && pyTruthy co) = false := by
    rcases hby with h | h <;> simp [h]
  unfold mkInquiryCore at hok
  rw [hcond] at hok
  simp only [Bool.false_eq_true, if_false] at hok
  repeat
    first
    | exact Except.noConfusion hok
    | split at hok
  injection hok with h
  rw [← h]
  exact ⟨rfl, rfl⟩

/-- C10: on the room-booking inquiry endpoint, check-in/check-out
validation runs only when both dates are supplied and truthy: with a
falsy or absent check-out, the submitted check-in — even past or
malformed — is never consulted (the outcome is invariant under replacing
it by anything), and any inquiry created while either date is missing
stores null for both dates. -/
theorem c10_date_validation_bypass (rooms : List Room) (today : PyDate)
    (data : Data) :
    (pyTruthy (pyGet data "check_out") = false →
      ∀ v w, create_inquiry rooms today (setKey data "check_in" v) =
        create_inquiry rooms today (setKey data "check_in" w)) ∧
    (pyTruthy (pyGet data "check_in") = false ∨
        pyTruthy (pyGet data "check_out") = false →
      ∀ inq, create_inquiry rooms today data = .ok inq →
        inq.check_in = none ∧ inq.check_out = none) := by
  constructor
  · intro h v w
    simp only [create_inquiry]
    rw [if_neg (by simp [setKey]), if_neg (by simp [setKey])]
    simp only [pyGet_setKey]
    simp only [show (("check_in" == "name") = false) from rfl,
      show (("check_in" == "email") = false) from rfl,
      show (("check_in" == "phone") = false) from rfl,
      show (("check_in" == "inquiry_type") = false) from rfl,
      show (("check_in" == "message") = false) from rfl,
      show (("check_in" == "room_id") = false) from rfl,
      show (("check_in" == "check_in") = true) from rfl,
      show (("check_in" == "check_out") = false) from rfl,
      show (("check_in" == "guests") = false) from rfl,
      if_true, if_false, Bool.false_eq_true, Bool.true_eq_false]
    exact mkInquiryCore_ci_irrel rooms today _ _ _ _ _ _ v w _ _ h
  · intro hby inq hok
    unfold create_inquiry at hok
    split at hok
    · exact Except.noConfusion hok
    · exact mkInquiryCore_ok_dates_none rooms today _ _ _ _ _ _ _ _ _ inq hby hok

/-- C10 witness: a request supplying only a past, otherwise well-formed
check-in (and no check-out) creates the inquiry with both stored dates
null, and its outcome equals that of the same request with a malformed
check-in. -/
theorem c10_date_validation_witness :
    (create_inquiry [] ⟨2026, 1, 1⟩
        (setKey (baseBookingData PyVal.vNone) "check_in" (PyVal.vStr "1999-01-01")) =
      create_inquiry [] ⟨2026, 1, 1⟩
        (setKey (baseBookingData PyVal.vNone) "check_in" (PyVal.vStr "garbage"))) ∧
    ((baseInquiryRec none).check_in = none ∧ (baseInquiryRec none).check_out = none) := by
  constructor
  · exact (c10_date_validation_bypass [] ⟨2026, 1, 1⟩ (baseBookingData PyVal.vNone)).1
      rfl (PyVal.vStr "1999-01-01") (PyVal.vStr "garbage")
  · exact (c10_date_validation_bypass [] ⟨2026, 1, 1⟩
      (setKey (baseBookingData PyVal.vNone) "check_in" (PyVal.vStr "1999-01-01"))).2
      (Or.inr rfl) (baseInquiryRec none) rfl

end Wima
